import Mathlib

/-!
Verification of the error-normalization and request-observability layer
(`error-handlers.py` and `logging-config.py`).

The Python code is embedded shallowly:
* JSON response bodies become ordered key-value lists (`JObj`); the one
  array the bodies contain, the validation `details` list, holds
  `ValidationDetail` records.
* Each `@app.exception_handler(C)`-registered coroutine becomes a pure
  function from the data the handler reads off the exception to the
  `JSONResponse` it returns.  Logging calls inside the handlers are pure
  side effects on the process log and are not part of the returned
  response; they are therefore not part of these functions.
* The closed set of exception classes the application distinguishes
  becomes the sum type `Exc`; FastAPI dispatches an exception to the
  most specific registered handler, which on this closed set is the
  per-constructor dispatch `register_error_handlers`.
* The middleware classes become explicit state-passing functions over an
  observability state (bound structlog context variables, emitted log
  records, Prometheus counter increments and histogram observations).
  Wall-clock durations (`time.time()` differences) are abstracted to a
  `Nat` parameter, the only way a float duration enters the model.
-/

namespace Linking

/-- One entry of the `details` array of a validation-error body: the
dict `{"location": ..., "message": ..., "type": ...}` built per field
error. -/
structure ValidationDetail where
  location : String
  message : String
  type : String
  deriving DecidableEq, Repr

/-- A JSON value occurring in one of the response bodies this repository
emits: every value is a string, except the `details` array of the
validation handler, whose elements are `ValidationDetail` records. -/
inductive JVal where
  | str : String → JVal
  | arr : List ValidationDetail → JVal
  deriving DecidableEq, Repr

/-- A JSON object body: an ordered list of key-value pairs, exactly as
the Python dict literals of the handlers enumerate them. -/
abbrev JObj := List (String × JVal)

/-- Field lookup on a JSON object body. -/
def JObj.lookup (fields : JObj) (key : String) : Option JVal :=
  List.lookup key fields

/-- The keys of a JSON object body, in order. -/
def JObj.keys (fields : JObj) : List String :=
  fields.map Prod.fst

/-- A `fastapi.responses.JSONResponse`: a status code and a JSON body. -/
structure JSONResponse where
  status_code : Int
  content : JObj
  deriving DecidableEq, Repr

/-- One segment of a pydantic error location path; `str(x)` in the source
turns each segment into a string, so a segment is a string or an index. -/
inductive LocSeg where
  | s : String → LocSeg
  | n : Nat → LocSeg
  deriving DecidableEq, Repr

/-- The `str(x)` conversion applied to each location segment. -/
def LocSeg.toStr : LocSeg → String
  | .s v => v
  | .n v => toString v

/-- One entry of `exc.errors()` of a `RequestValidationError`. -/
structure FieldError where
  loc : List LocSeg
  msg : String
  type : String
  deriving DecidableEq, Repr

/-- Handler for `StarletteHTTPException` (`error-handlers.py` lines 27-37):
passthrough status code, body `{error: detail, type: http_error}`. -/
def http_exception_handler (status_code : Int) (detail : String) : JSONResponse :=
  { status_code := status_code,
    content := [("error", .str detail), ("type", .str "http_error")] }

/-- Handler for `RequestValidationError` (lines 39-62): status 422, and for
each reported field error, a record whose location joins the path segments
with " -> ". -/
def validation_exception_handler (errors : List FieldError) : JSONResponse :=
  let error_details := errors.map (fun error =>
    let loc := String.intercalate " -> " (error.loc.map LocSeg.toStr)
    ValidationDetail.mk loc error.msg error.type)
  { status_code := 422,
    content := [("error", .str "Validation error"),
                ("type", .str "validation_error"),
                ("details", .arr error_details)] }

/-- Handler for `DatabaseConnectionError` (lines 64-77). -/
def db_connection_exception_handler (msg : String) : JSONResponse :=
  { status_code := 503,
    content := [("error", .str "Database connection error"),
                ("type", .str "database_connection_error"),
                ("detail", .str msg)] }

/-- Handler for `asyncpg` `PostgresError` (lines 79-92). -/
def postgres_exception_handler (msg : String) : JSONResponse :=
  { status_code := 500,
    content := [("error", .str "Database error"),
                ("type", .str "postgres_error"),
                ("detail", .str msg)] }

/-- Handler for Spark `AnalysisException` (lines 94-107). -/
def spark_analysis_exception_handler (msg : String) : JSONResponse :=
  { status_code := 400,
    content := [("error", .str "Spark query analysis error"),
                ("type", .str "spark_analysis_error"),
                ("detail", .str msg)] }

/-- Handler for Spark `IllegalArgumentException` (lines 109-122). -/
def spark_argument_exception_handler (msg : String) : JSONResponse :=
  { status_code := 400,
    content := [("error", .str "Spark illegal argument error"),
                ("type", .str "spark_argument_error"),
                ("detail", .str msg)] }

/-- Handler for `TrinoQueryError` (lines 124-137). -/
def trino_query_exception_handler (msg : String) : JSONResponse :=
  { status_code := 400,
    content := [("error", .str "Trino query error"),
                ("type", .str "trino_query_error"),
                ("detail", .str msg)] }

/-- Handler for `QueryBuildError` (lines 139-152). -/
def query_build_exception_handler (msg : String) : JSONResponse :=
  { status_code := 400,
    content := [("error", .str "Failed to build query"),
                ("type", .str "query_build_error"),
                ("detail", .str msg)] }

/-- Handler for `UnknownDataSourceError` (lines 154-167). -/
def unknown_datasource_exception_handler (msg : String) : JSONResponse :=
  { status_code := 400,
    content := [("error", .str "Unknown data source"),
                ("type", .str "unknown_data_source_error"),
                ("detail", .str msg)] }

/-- Catch-all handler for `Exception` (lines 169-182): `detail` is
`str(exc)` when `app.debug` holds, otherwise the fixed string. -/
def general_exception_handler (debug : Bool) (msg : String) : JSONResponse :=
  { status_code := 500,
    content := [("error", .str "Internal server error"),
                ("type", .str "server_error"),
                ("detail", .str (if debug then msg
                                      else "An unexpected error occurred"))] }

/-- The exception categories the application distinguishes.  Each
constructor carries the data its handler reads: the HTTP exception its
status code and detail, the validation error its field-error list, every
other specific class its `str(exc)` message.  `other` is any exception
matching none of the nine specific classes. -/
inductive Exc where
  | starletteHTTP : Int → String → Exc
  | requestValidation : List FieldError → Exc
  | databaseConnection : String → Exc
  | postgres : String → Exc
  | sparkAnalysis : String → Exc
  | sparkIllegalArgument : String → Exc
  | trinoQuery : String → Exc
  | queryBuild : String → Exc
  | unknownDataSource : String → Exc
  | other : String → Exc
  deriving DecidableEq, Repr

/-- The exception-to-response mapping that `register_error_handlers`
installs on the app: FastAPI routes each raised exception to the most
specific registered handler, which on the closed set of categories is
this per-constructor dispatch.  `debug` is `app.debug`, read only by the
catch-all. -/
def register_error_handlers (debug : Bool) : Exc → JSONResponse
  | .starletteHTTP status_code detail => http_exception_handler status_code detail
  | .requestValidation errors => validation_exception_handler errors
  | .databaseConnection msg => db_connection_exception_handler msg
  | .postgres msg => postgres_exception_handler msg
  | .sparkAnalysis msg => spark_analysis_exception_handler msg
  | .sparkIllegalArgument msg => spark_argument_exception_handler msg
  | .trinoQuery msg => trino_query_exception_handler msg
  | .queryBuild msg => query_build_exception_handler msg
  | .unknownDataSource msg => unknown_datasource_exception_handler msg
  | .other msg => general_exception_handler debug msg

/-- The ten `type` strings the handlers can emit. -/
def errorTaxonomy : List String :=
  ["http_error", "validation_error", "database_connection_error",
   "postgres_error", "spark_analysis_error", "spark_argument_error",
   "trino_query_error", "query_build_error", "unknown_data_source_error",
   "server_error"]

/-- A value bound into the structlog context or passed as a log field:
a string, an integer (status codes), or Python `None` (absent client). -/
inductive CtxVal where
  | s : String → CtxVal
  | i : Int → CtxVal
  | none : CtxVal
  deriving DecidableEq, Repr

/-- The structlog context variables currently bound: an ordered key-value
map.  Per request it is contextvar-backed, hence isolated per logical
request; this model tracks one logical request's view of it. -/
abbrev Ctx := List (String × CtxVal)

/-- Set one context variable, overwriting any previous binding of the key. -/
def ctxSet (ctx : Ctx) (k : String) (v : CtxVal) : Ctx :=
  ctx.filter (fun p => p.1 != k) ++ [(k, v)]

/-- The `structlog.contextvars.bind_contextvars(**kvs)` call: bind each
given key-value pair in turn. -/
def bind_contextvars (ctx : Ctx) (kvs : List (String × CtxVal)) : Ctx :=
  kvs.foldl (fun c p => ctxSet c p.1 p.2) ctx

/-- The `structlog.contextvars.clear_contextvars()` call. -/
def clear_contextvars (_ : Ctx) : Ctx := []

/-- Severity of an emitted log record; `exc` is `logger.exception`
(error severity with traceback). -/
inductive LogLevel where
  | info : LogLevel
  | warning : LogLevel
  | error : LogLevel
  | exc : LogLevel
  deriving DecidableEq, Repr

/-- One emitted log record: severity, event string, keyword fields. -/
structure LogRecord where
  level : LogLevel
  event : String
  fields : List (String × CtxVal)
  deriving DecidableEq, Repr

/-- An inbound starlette `Request`, as far as the middleware reads it. -/
structure Request where
  method : String
  path : String
  query_params : String
  client : Option String
  deriving DecidableEq, Repr

/-- A starlette `Response`: its status code plus the rest of the object,
which the middleware never inspects, kept opaque as `body`. -/
structure Response where
  status_code : Int
  body : String
  deriving DecidableEq, Repr

/-- Outcome of `await call_next(request)`: a response, or a raised
exception carrying its `str(e)` message. -/
inductive Outcome where
  | ok : Response → Outcome
  | err : String → Outcome
  deriving DecidableEq, Repr

/-- One `REQUEST_COUNT.labels(method, path, status_code).inc()` call. -/
structure CounterSample where
  method : String
  path : String
  status_code : Int
  deriving DecidableEq, Repr

/-- One `REQUEST_LATENCY.labels(method, path).observe(duration)` call;
the float duration is abstracted to `Nat`. -/
structure LatencySample where
  method : String
  path : String
  duration : Nat
  deriving DecidableEq, Repr

/-- The observable state one `dispatch` invocation reads and writes: the
bound structlog context, the emitted log records, and the two Prometheus
metric series (each `inc`/`observe` appends one sample). -/
structure ObsState where
  contextvars : Ctx
  logs : List LogRecord
  request_count : List CounterSample
  request_latency : List LatencySample
  deriving DecidableEq, Repr

/-- The `f"{process_time:.4f}s"` formatting, on the abstracted duration. -/
def fmtSeconds (t : Nat) : String := toString t ++ "s"

/-- The `request.client.host if request.client else None` expression. -/
def clientVal (request : Request) : CtxVal :=
  match request.client with
  | some h => .s h
  | Option.none => .none

/-- The body of `LoggingMiddleware.dispatch` (`logging-config.py` lines
81-151).  `request_id` stands for `str(time.time())` and `process_time`
for `time.time() - start_time`, both external clock inputs; `call_next`
is the already-determined outcome of the downstream stage.  Returns the
outcome propagated to the caller (the response, or the re-raised
exception) together with the updated observable state. -/
def LoggingMiddleware.dispatch (request : Request) (request_id : String)
    (process_time : Nat) (call_next : Outcome) (st : ObsState) :
    Outcome × ObsState :=
  let st := { st with
    contextvars := bind_contextvars st.contextvars [("request_id", .s request_id)] }
  let st := { st with logs := st.logs ++
    [LogRecord.mk .info "Request started"
      [("method", .s request.method), ("path", .s request.path),
       ("query_params", .s request.query_params),
       ("client", clientVal request)]] }
  match call_next with
  | .ok response =>
    let st := { st with logs := st.logs ++
      [LogRecord.mk .info "Request completed"
        [("method", .s request.method), ("path", .s request.path),
         ("status_code", .i response.status_code),
         ("processing_time", .s (fmtSeconds process_time))]] }
    let st := { st with request_count := st.request_count ++
      [CounterSample.mk request.method request.path response.status_code] }
    let st := { st with request_latency := st.request_latency ++
      [LatencySample.mk request.method request.path process_time] }
    (.ok response, st)
  | .err e =>
    let st := { st with logs := st.logs ++
      [LogRecord.mk .exc "Request failed"
        [("method", .s request.method), ("path", .s request.path),
         ("processing_time", .s (fmtSeconds process_time)),
         ("error", .s e)]] }
    let st := { st with request_count := st.request_count ++
      [CounterSample.mk request.method request.path 500] }
    let st := { st with request_latency := st.request_latency ++
      [LatencySample.mk request.method request.path process_time] }
    (.err e, st)

/-- The body of `RequestLoggingContextMiddleware.dispatch` (lines
158-179).  `request_id` stands for `str(int(time.time() * 1000))`.  When
`call_next` raises, the exception propagates before the status-code
binding is reached, so the context at exit is the one bound at entry. -/
def RequestLoggingContextMiddleware.dispatch (request : Request)
    (request_id : String) (call_next : Outcome) (ctx : Ctx) :
    Outcome × Ctx :=
  let ctx := clear_contextvars ctx
  let ctx := bind_contextvars ctx
    [("request_id", .s request_id), ("method", .s request.method),
     ("path", .s request.path), ("client_ip", clientVal request)]
  match call_next with
  | .ok response =>
    let ctx := bind_contextvars ctx [("status_code", .i response.status_code)]
    (.ok response, ctx)
  | .err e => (.err e, ctx)

/-- A concrete inbound request used by the concrete evaluations below. -/
def sampleRequest : Request := Request.mk "GET" "/items" "" (some "127.0.0.1")

/-- A concrete downstream response used by the concrete evaluations below. -/
def sampleResponse : Response := Response.mk 200 "ok"

/-- The observable state before a request: nothing bound, nothing emitted. -/
def emptyObsState : ObsState := ObsState.mk [] [] [] []

/-- Claim C1, as stated, is false: the handler for a generic
relational-store failure (`PostgresError`) returns `type`
`"postgres_error"`, not the `"database_error"` the spec's table names. -/
theorem C1_type_string_counterexample :
    JObj.lookup (register_error_handlers false (Exc.postgres "boom")).content "type"
      ≠ some (JVal.str "database_error") := by decide

/-- Claim C1 (amended): each backend failure category yields the status
code of the spec's table, but the code's own `type` strings: a generic
relational-store failure yields status 500 with type `"postgres_error"`,
a big-data-engine analysis failure status 400 with
`"spark_analysis_error"`, a big-data-engine illegal-argument failure
status 400 with `"spark_argument_error"`, and a distributed-query-engine
failure status 400 with `"trino_query_error"` — independent of the
failure's message content and of debug mode. -/
theorem C1_backend_category_status_and_type (debug : Bool) (m : String) :
    ((register_error_handlers debug (Exc.postgres m)).status_code = 500 ∧
      JObj.lookup (register_error_handlers debug (Exc.postgres m)).content "type"
        = some (JVal.str "postgres_error")) ∧
    ((register_error_handlers debug (Exc.sparkAnalysis m)).status_code = 400 ∧
      JObj.lookup (register_error_handlers debug (Exc.sparkAnalysis m)).content "type"
        = some (JVal.str "spark_analysis_error")) ∧
    ((register_error_handlers debug (Exc.sparkIllegalArgument m)).status_code = 400 ∧
      JObj.lookup (register_error_handlers debug (Exc.sparkIllegalArgument m)).content "type"
        = some (JVal.str "spark_argument_error")) ∧
    ((register_error_handlers debug (Exc.trinoQuery m)).status_code = 400 ∧
      JObj.lookup (register_error_handlers debug (Exc.trinoQuery m)).content "type"
        = some (JVal.str "trino_query_error")) :=
  ⟨⟨rfl, rfl⟩, ⟨rfl, rfl⟩, ⟨rfl, rfl⟩, ⟨rfl, rfl⟩⟩

/-- Claim C2, as stated, is false: after a normal-return invocation of
either middleware, the context bound at entry is still bound — neither
`LoggingMiddleware.dispatch` nor `RequestLoggingContextMiddleware.dispatch`
clears the logging context on exit. -/
theorem C2_not_cleared_on_exit_counterexample :
    (LoggingMiddleware.dispatch sampleRequest "1700.5" 1 (Outcome.ok sampleResponse)
        emptyObsState).2.contextvars.lookup "request_id" = some (CtxVal.s "1700.5") ∧
    (RequestLoggingContextMiddleware.dispatch sampleRequest "1700500"
        (Outcome.ok sampleResponse) []).2.lookup "request_id"
      = some (CtxVal.s "1700500") := by decide

/-- Claim C2 (amended): the per-request logging context is not cleared
on exit.  `LoggingMiddleware.dispatch` leaves the `request_id` binding
in the context on both exit paths and never clears it;
`RequestLoggingContextMiddleware.dispatch` instead clears any previously
bound context at entry — its resulting context is independent of the
incoming context — and leaves the request bindings (in particular
`request_id`) in place at exit on both paths. -/
theorem C2_context_lifetime (st : ObsState) (req : Request) (rid : String)
    (pt : Nat) (out : Outcome) (ctx1 ctx2 : Ctx) (rid2 : String) (out2 : Outcome) :
    (LoggingMiddleware.dispatch req rid pt out st).2.contextvars
      = bind_contextvars st.contextvars [("request_id", CtxVal.s rid)] ∧
    (RequestLoggingContextMiddleware.dispatch req rid2 out2 ctx1).2
      = (RequestLoggingContextMiddleware.dispatch req rid2 out2 ctx2).2 ∧
    (RequestLoggingContextMiddleware.dispatch req rid2 out2 ctx1).2.lookup "request_id"
      = some (CtxVal.s rid2) := by
  refine ⟨?_, ?_, ?_⟩
  · cases out <;> rfl
  · cases out2 <;> rfl
  · cases out2 <;> rfl

/-- Claim C3: on the catch-all branch, with debug mode off `detail` is
the fixed string "An unexpected error occurred" and the whole response
is byte-identical for any two failure messages; with debug mode on,
`detail` equals the failure's message exactly. -/
theorem C3_debug_gate (m m1 m2 : String) :
    JObj.lookup (general_exception_handler false m).content "detail"
      = some (JVal.str "An unexpected error occurred") ∧
    general_exception_handler false m1 = general_exception_handler false m2 ∧
    JObj.lookup (general_exception_handler true m).content "detail"
      = some (JVal.str m) :=
  ⟨rfl, rfl, rfl⟩

/-- Claim C4: a failure matching none of the nine specific categories is
handled by the catch-all, which returns status 500 with type
`"server_error"`, a member of the ten-entry taxonomy; the handler is a
total function (it never raises) for every debug flag and message. -/
theorem C4_catch_all_fallthrough (debug : Bool) (m : String) :
    register_error_handlers debug (Exc.other m) = general_exception_handler debug m ∧
    (register_error_handlers debug (Exc.other m)).status_code = 500 ∧
    JObj.lookup (register_error_handlers debug (Exc.other m)).content "type"
      = some (JVal.str "server_error") ∧
    "server_error" ∈ errorTaxonomy := by
  refine ⟨rfl, rfl, rfl, by decide⟩

/-- Claim C5: a request validation failure yields status 422 with type
`"validation_error"`, and its `details` sequence records, in the order
the validation layer reported the field errors, the location path joined
with " -> ", the message, and the type; in particular the field error
with loc [body, age], msg "must be positive", type "value_error"
produces the single detail {body -> age, must be positive, value_error}. -/
theorem C5_validation_details (errors : List FieldError) :
    (validation_exception_handler errors).status_code = 422 ∧
    JObj.lookup (validation_exception_handler errors).content "type"
      = some (JVal.str "validation_error") ∧
    JObj.lookup (validation_exception_handler errors).content "details"
      = some (JVal.arr (errors.map (fun e =>
          ValidationDetail.mk
            (String.intercalate " -> " (e.loc.map LocSeg.toStr)) e.msg e.type))) ∧
    JObj.lookup (validation_exception_handler
        [FieldError.mk [LocSeg.s "body", LocSeg.s "age"]
          "must be positive" "value_error"]).content "details"
      = some (JVal.arr
          [ValidationDetail.mk "body -> age" "must be positive" "value_error"]) := by
  refine ⟨rfl, rfl, rfl, by decide⟩

/-- Claim C6: one invocation of the request-observing middleware appends
exactly one sample to the request counter and exactly one observation to
the duration histogram, whichever way the downstream call ends. -/
theorem C6_exactly_one_metric_sample (req : Request) (rid : String) (pt : Nat)
    (out : Outcome) (st : ObsState) :
    ((LoggingMiddleware.dispatch req rid pt out st).2.request_count).length
      = st.request_count.length + 1 ∧
    ((LoggingMiddleware.dispatch req rid pt out st).2.request_latency).length
      = st.request_latency.length + 1 := by
  cases out <;> exact ⟨by simp [LoggingMiddleware.dispatch],
    by simp [LoggingMiddleware.dispatch]⟩

/-- Claim C7: when the downstream stage raises, the middleware appends
one counter sample labeled with status_code 500 and one histogram
observation of the elapsed duration, and propagates the very same
failure unchanged. -/
theorem C7_failure_path (req : Request) (rid : String) (pt : Nat) (e : String)
    (st : ObsState) :
    (LoggingMiddleware.dispatch req rid pt (Outcome.err e) st).1 = Outcome.err e ∧
    (LoggingMiddleware.dispatch req rid pt (Outcome.err e) st).2.request_count
      = st.request_count ++ [CounterSample.mk req.method req.path 500] ∧
    (LoggingMiddleware.dispatch req rid pt (Outcome.err e) st).2.request_latency
      = st.request_latency ++ [LatencySample.mk req.method req.path pt] :=
  ⟨rfl, rfl, rfl⟩

/-- Claim C8: a framework-level HTTP failure carrying an explicit status
code and detail is answered with that status code unchanged, type
`"http_error"`, and `error` equal to the failure's detail. -/
theorem C8_http_passthrough (debug : Bool) (sc : Int) (d : String) :
    (register_error_handlers debug (Exc.starletteHTTP sc d)).status_code = sc ∧
    JObj.lookup (register_error_handlers debug (Exc.starletteHTTP sc d)).content "type"
      = some (JVal.str "http_error") ∧
    JObj.lookup (register_error_handlers debug (Exc.starletteHTTP sc d)).content "error"
      = some (JVal.str d) :=
  ⟨rfl, rfl, rfl⟩

/-- Claim C9: when the downstream stage returns normally, the middleware
propagates exactly the response object it received, unmodified. -/
theorem C9_response_unchanged (req : Request) (rid : String) (pt : Nat)
    (resp : Response) (st : ObsState) :
    (LoggingMiddleware.dispatch req rid pt (Outcome.ok resp) st).1
      = Outcome.ok resp :=
  rfl

/-- Claim C10, as stated, is false: on the catch-all branch with debug
mode off, the `detail` key carries the fixed string, not the failure's
message "boom". -/
theorem C10_detail_value_counterexample :
    JObj.lookup (register_error_handlers false (Exc.other "boom")).content "detail"
      ≠ some (JVal.str "boom") := by decide

/-- Claim C10 (amended): the http_error body contains exactly the keys
"error" and "type" (so never a "detail" key), while every other
non-validation category's body includes a "detail" key; for the seven
specific categories it carries the failure's message, and on the
catch-all it carries the message only in debug mode, otherwise the fixed
string "An unexpected error occurred". -/
theorem C10_detail_key_presence (debug : Bool) (sc : Int) (d m : String) :
    JObj.keys (register_error_handlers debug (Exc.starletteHTTP sc d)).content
      = ["error", "type"] ∧
    JObj.lookup (register_error_handlers debug (Exc.databaseConnection m)).content "detail"
      = some (JVal.str m) ∧
    JObj.lookup (register_error_handlers debug (Exc.postgres m)).content "detail"
      = some (JVal.str m) ∧
    JObj.lookup (register_error_handlers debug (Exc.sparkAnalysis m)).content "detail"
      = some (JVal.str m) ∧
    JObj.lookup (register_error_handlers debug (Exc.sparkIllegalArgument m)).content "detail"
      = some (JVal.str m) ∧
    JObj.lookup (register_error_handlers debug (Exc.trinoQuery m)).content "detail"
      = some (JVal.str m) ∧
    JObj.lookup (register_error_handlers debug (Exc.queryBuild m)).content "detail"
      = some (JVal.str m) ∧
    JObj.lookup (register_error_handlers debug (Exc.unknownDataSource m)).content "detail"
      = some (JVal.str m) ∧
    JObj.lookup (register_error_handlers debug (Exc.other m)).content "detail"
      = some (JVal.str (if debug then m else "An unexpected error occurred")) :=
  ⟨rfl, rfl, rfl, rfl, rfl, rfl, rfl, rfl, rfl⟩

end Linking
